import Mathlib

/-!
Verification of the WavPatcher CLI (`src/wavpatcher.py`).

The program walks a directory tree, collects every file whose name ends in
`.wav` (`Path(directory).rglob('*.wav')`), and for each one opens it, seeks
to byte offset 20, reads 2 bytes, interprets them as an unsigned
little-endian 16-bit integer (the WAV format tag), and — when the tag is
65534 (WAVE_FORMAT_EXTENSIBLE) — counts the file, records its path, and
(unless in simulate mode) overwrites bytes 20–21 with `01 00`.

Shallow embedding: a file is a path together with its byte content
(a `List Nat` of values < 256) plus an environment-given failure behaviour
(whether open/read raises, whether the in-place write raises), mirroring the
`try/except` structure of the Python loop.  The filesystem is the list of
all files below the root, in traversal order, plus the root's existence.
Printing is embedded as a list of `LogEvent`s so that claims about
verbosity can compare runs.
-/

/-- An exception raised by a file operation: `PermissionError` or any other
`Exception` (the two `except` arms of the Python loop). -/
inductive Failure
  | permission
  | other
deriving DecidableEq, Repr

/-- One file below the root: its path, its byte content, and its failure
behaviour.  `openFail = some e` means opening/seeking/reading the file
raises `e` (lines 77–80 of the source); `writeFail = some e` means the
seek-back/write of lines 91–92 raises `e` after a successful read. -/
structure WavFile where
  path : String
  content : List Nat
  openFail : Option Failure
  writeFail : Option Failure
deriving DecidableEq, Repr

/-- `rglob('*.wav')` keeps exactly the files whose name ends in `.wav`
(ends-with stated on the character list, so that it evaluates). -/
def isWav (f : WavFile) : Bool := ".wav".toList.isSuffixOf f.path.toList

/-- The directory tree handed to the program: root path, whether it exists,
whether it is a directory (checked by `main` only), and all files below it
in traversal order. -/
structure FileSystem where
  root : String
  rootExists : Bool
  rootIsDir : Bool
  allFiles : List WavFile
deriving Repr

/-- `f.seek(off, 0); f.read(n)`: the bytes of `content` from offset `off`,
at most `n` of them — a read past the end returns fewer bytes or none. -/
def readBytesAt (content : List Nat) (off n : Nat) : List Nat :=
  (content.drop off).take n

/-- `int.from_bytes(bs, byteorder='little', signed=False)`:
`[] ↦ 0`, `[b0] ↦ b0`, `[b0, b1] ↦ b0 + 256 * b1`, … -/
def int_from_bytes_le (bs : List Nat) : Nat :=
  bs.foldr (fun b acc => b + 256 * acc) 0

/-- Lines 78–80 of the source: seek to offset 20, read 2 bytes, decode as
unsigned little-endian. -/
def format_id_of (content : List Nat) : Nat :=
  int_from_bytes_le (readBytesAt content 20 2)

/-- `f.seek(-2, 1); f.write(bs)` after the 2-byte read at offset 20:
overwrite the bytes starting at `off` with `bs` in place.  In the program
the write happens only after a successful 2-byte read at offset 20, so
`off + bs.length ≤ content.length` at every reachable call; then this
replaces exactly those bytes and keeps the length. -/
def writeAt (content : List Nat) (off : Nat) (bs : List Nat) : List Nat :=
  content.take off ++ bs ++ content.drop (off + bs.length)

/-- The mutable loop state of `patch_wav_files`: the counters
`extensible_files` and `patched_file_list` (lines 39–41). -/
structure LoopState where
  extensible_files : Nat
  patched_file_list : List String
deriving DecidableEq, Repr

/-- What the program prints, as abstract events (floating-point rendering of
the progress percentage is abstracted to the pair `idx, total`). -/
inductive LogEvent
  | noFilesMsg
  | banner (simulate : Bool) (directory : String) (total : Nat)
  | found (path : String)
  | patchedLine (path : String)
  | progress (idx total : Nat)
  | permissionDenied (path : String)
  | ioError (path : String)
deriving DecidableEq, Repr

/-- The body of the `for` loop (lines 76–105) for one file: returns the new
loop state, the file after the iteration, the lines printed, and whether the
iteration completed without an exception (the progress line of lines 94–96
is printed only in that case, since `continue` skips it). -/
def process_one (simulate verbose : Bool) (st : LoopState) (f : WavFile) :
    LoopState × WavFile × List LogEvent × Bool :=
  match f.openFail with
  | some Failure.permission =>
      (st, f, if verbose then [LogEvent.permissionDenied f.path] else [], false)
  | some Failure.other =>
      (st, f, if verbose then [LogEvent.ioError f.path] else [], false)
  | none =>
      if format_id_of f.content = 65534 then
        let st' : LoopState :=
          { extensible_files := st.extensible_files + 1,
            patched_file_list := st.patched_file_list ++ [f.path] }
        let ev : List LogEvent :=
          if verbose then
            [if simulate then LogEvent.found f.path else LogEvent.patchedLine f.path]
          else []
        if simulate then (st', f, ev, true)
        else
          match f.writeFail with
          | some Failure.permission =>
              (st', f, ev ++ (if verbose then [LogEvent.permissionDenied f.path] else []), false)
          | some Failure.other =>
              (st', f, ev ++ (if verbose then [LogEvent.ioError f.path] else []), false)
          | none =>
              (st', { f with content := writeAt f.content 20 [1, 0] }, ev, true)
      else (st, f, [], true)

/-- The `for idx, path in enumerate(wav_files, 1)` loop (lines 75–105),
run over the full file list: files not matching `*.wav` are never in
`wav_files`, so they pass through untouched and do not advance `idx`;
matching files are processed in order with `idx` enumerating them from 1
(exactly the iteration order of `list(process_dir.rglob('*.wav'))`). -/
def scan_files (simulate verbose : Bool) (total : Nat) :
    List WavFile → Nat → LoopState → LoopState × List WavFile × List LogEvent
  | [], _, st => (st, [], [])
  | f :: fs, idx, st =>
      if isWav f then
        let r := process_one simulate verbose st f
        let prog : List LogEvent :=
          if verbose && r.2.2.2 && (idx % 100 == 0) then
            [LogEvent.progress idx total]
          else []
        let rest := scan_files simulate verbose total fs (idx + 1) r.1
        (rest.1, r.2.1 :: rest.2.1, r.2.2.1 ++ prog ++ rest.2.2)
      else
        let rest := scan_files simulate verbose total fs idx st
        (rest.1, f :: rest.2.1, rest.2.2)

/-- The dictionary returned by `patch_wav_files` (its five possible keys). -/
structure ScanResult where
  total_files : Nat
  extensible_files : Nat
  patched_files : List String
  success : Bool
  error : Option String
  message : Option String
deriving DecidableEq, Repr

/-- `list(process_dir.rglob('*.wav'))` (line 53). -/
def discovered (fs : FileSystem) : List WavFile :=
  fs.allFiles.filter (fun f => isWav f)

/-- `patch_wav_files(directory, simulate, verbose)` (lines 16–112): returns
the result dictionary, the filesystem after the run, and the printed lines. -/
def patch_wav_files (fs : FileSystem) (simulate verbose : Bool) :
    ScanResult × FileSystem × List LogEvent :=
  if fs.rootExists = false then
    ({ total_files := 0, extensible_files := 0, patched_files := [],
       success := false,
       error := some ("Directory does not exist: " ++ fs.root),
       message := none }, fs, [])
  else
    let total := (discovered fs).length
    if total = 0 then
      ({ total_files := 0, extensible_files := 0, patched_files := [],
         success := true, error := none,
         message := some "No WAV files found" }, fs,
       if verbose then [LogEvent.noFilesMsg] else [])
    else
      let bannerLog : List LogEvent :=
        if verbose then [LogEvent.banner simulate fs.root total] else []
      let r := scan_files simulate verbose total fs.allFiles 1
        { extensible_files := 0, patched_file_list := [] }
      ({ total_files := total, extensible_files := r.1.extensible_files,
         patched_files := r.1.patched_file_list,
         success := true, error := none, message := none },
       { fs with allFiles := r.2.1 }, bannerLog ++ r.2.2)

/-- `main()` (lines 115–188): validates the directory, runs the patcher
with `simulate = not args.patch`, `verbose = not args.quiet`, and returns
the process exit code together with the filesystem after the run.  The
`--list` flag only adds output and is dropped here. -/
def CLI.main (fs : FileSystem) (patch quiet : Bool) : Nat × FileSystem :=
  if fs.rootExists = false then (1, fs)
  else if fs.rootIsDir = false then (1, fs)
  else
    let r := patch_wav_files fs (!patch) (!quiet)
    if r.1.success = false then (1, r.2.1) else (0, r.2.1)

/-- All entries of a file content are bytes (< 256); the embedding of file
bytes as `Nat` is faithful only under this bound. -/
def bytesBounded (c : List Nat) : Prop := ∀ b ∈ c, b < 256

/-- A file whose read succeeds and whose format tag is 65534: exactly the
files the loop counts and records (line 82 of the source, together with the
`try` around the read). -/
def matchedFile (f : WavFile) : Bool :=
  f.openFail.isNone && (format_id_of f.content == 65534)

/-- A file the loop counts: discovered by `rglob('*.wav')` and matched. -/
def counted (f : WavFile) : Bool := isWav f && matchedFile f

/-- What one run does to a single file: in simulate mode nothing; in patch
mode, bytes 20–21 become `01 00` exactly when the file is a discovered
match and its write does not raise. -/
def stepFile (simulate : Bool) (f : WavFile) : WavFile :=
  if simulate then f
  else if counted f && f.writeFail.isNone then
    { f with content := writeAt f.content 20 [1, 0] }
  else f

/- ------------------------------------------------------------------ -/
/- Characterization lemmas for the scan loop.                         -/
/- ------------------------------------------------------------------ -/

theorem process_one_state (simulate verbose : Bool) (st : LoopState) (f : WavFile) :
    (process_one simulate verbose st f).1 =
      if matchedFile f then
        { extensible_files := st.extensible_files + 1,
          patched_file_list := st.patched_file_list ++ [f.path] }
      else st := by
  cases h : f.openFail with
  | none =>
      by_cases hfmt : format_id_of f.content = 65534
      · cases hw : f.writeFail with
        | none => cases simulate <;> simp [process_one, matchedFile, h, hfmt, hw]
        | some e => cases e <;> cases simulate <;>
            simp [process_one, matchedFile, h, hfmt, hw]
      · simp [process_one, matchedFile, h, hfmt]
  | some e => cases e <;> simp [process_one, matchedFile, h]

theorem process_one_file (simulate verbose : Bool) (st : LoopState) (f : WavFile) :
    (process_one simulate verbose st f).2.1 =
      if simulate then f
      else if matchedFile f && f.writeFail.isNone then
        { f with content := writeAt f.content 20 [1, 0] }
      else f := by
  cases h : f.openFail with
  | none =>
      by_cases hfmt : format_id_of f.content = 65534
      · cases hw : f.writeFail with
        | none => cases simulate <;> simp [process_one, matchedFile, h, hfmt, hw]
        | some e => cases e <;> cases simulate <;>
            simp [process_one, matchedFile, h, hfmt, hw]
      · cases simulate <;> simp [process_one, matchedFile, h, hfmt]
  | some e => cases e <;> cases simulate <;> simp [process_one, matchedFile, h]

theorem scan_files_state (simulate verbose : Bool) (total : Nat)
    (l : List WavFile) (idx : Nat) (st : LoopState) :
    (scan_files simulate verbose total l idx st).1 =
      { extensible_files := st.extensible_files + (l.filter counted).length,
        patched_file_list :=
          st.patched_file_list ++ (l.filter counted).map WavFile.path } := by
  induction l generalizing idx st with
  | nil => simp [scan_files]
  | cons f fs ih =>
      by_cases hw : isWav f
      · by_cases hm : matchedFile f
        · simp [scan_files, hw, counted, hm, process_one_state, ih,
            Nat.add_comm, Nat.add_assoc, Nat.add_left_comm]
        · simp [scan_files, hw, counted, hm, process_one_state, ih]
      · simp [scan_files, hw, counted, ih]

theorem scan_files_files (simulate verbose : Bool) (total : Nat)
    (l : List WavFile) (idx : Nat) (st : LoopState) :
    (scan_files simulate verbose total l idx st).2.1 =
      l.map (stepFile simulate) := by
  induction l generalizing idx st with
  | nil => simp [scan_files]
  | cons f fs ih =>
      by_cases hw : isWav f
      · simp [scan_files, hw, process_one_file, ih, stepFile, counted]
      · simp [scan_files, hw, ih, stepFile, counted]

/- ------------------------------------------------------------------ -/
/- Byte-level lemmas about the fixed-offset read and write.           -/
/- ------------------------------------------------------------------ -/

theorem readBytesAt_short (cs : List Nat) (hlen : cs.length < 22) :
    (readBytesAt cs 20 2).length < 2 := by
  simp [readBytesAt]
  omega

theorem format_id_of_short (cs : List Nat) (hb : bytesBounded cs)
    (hlen : cs.length < 22) : format_id_of cs ≠ 65534 := by
  unfold format_id_of readBytesAt
  cases h : cs.drop 20 with
  | nil => simp [int_from_bytes_le]
  | cons b rest =>
      have hrest : rest = [] := by
        have := congrArg List.length h
        simp at this
        cases rest with
        | nil => rfl
        | cons x xs => simp at this; omega
      subst hrest
      have hbmem : b ∈ cs := List.mem_of_mem_drop (h ▸ List.mem_cons_self b [])
      have hblt : b < 256 := hb b hbmem
      simp [int_from_bytes_le]
      omega

theorem length_ge_of_format (cs : List Nat) (hb : bytesBounded cs)
    (h : format_id_of cs = 65534) : 22 ≤ cs.length := by
  by_contra hlt
  exact format_id_of_short cs hb (by omega) h

theorem writeAt_decomp (cs : List Nat) :
    writeAt cs 20 [1, 0] = cs.take 20 ++ [1, 0] ++ cs.drop 22 := rfl

theorem writeAt_length (cs : List Nat) (h : 22 ≤ cs.length) :
    (writeAt cs 20 [1, 0]).length = cs.length := by
  simp [writeAt]
  omega

theorem length_take_20 (cs : List Nat) (h : 22 ≤ cs.length) :
    (cs.take 20).length = 20 := by
  simp
  omega

theorem writeAt_getElem_20 (cs : List Nat) (h : 22 ≤ cs.length) :
    (writeAt cs 20 [1, 0])[20]? = some 1 := by
  rw [writeAt_decomp, List.append_assoc,
    List.getElem?_append_right (by rw [length_take_20 cs h])]
  simp [length_take_20 cs h]

theorem writeAt_getElem_21 (cs : List Nat) (h : 22 ≤ cs.length) :
    (writeAt cs 20 [1, 0])[21]? = some 0 := by
  rw [writeAt_decomp, List.append_assoc,
    List.getElem?_append_right (by rw [length_take_20 cs h]; omega)]
  simp [length_take_20 cs h]

theorem writeAt_getElem_other (cs : List Nat) (h : 22 ≤ cs.length) (j : Nat)
    (h20 : j ≠ 20) (h21 : j ≠ 21) :
    (writeAt cs 20 [1, 0])[j]? = cs[j]? := by
  rw [writeAt_decomp, List.append_assoc]
  by_cases hj : j < 20
  · rw [List.getElem?_append_left (by rw [length_take_20 cs h]; omega)]
    exact List.getElem?_take_of_lt hj
  · have hj22 : 22 ≤ j := by omega
    rw [List.getElem?_append_right (by rw [length_take_20 cs h]; omega)]
    rw [length_take_20 cs h]
    have : ([1, 0] ++ cs.drop 22)[j - 20]? = (cs.drop 22)[j - 22]? := by
      rw [List.getElem?_append_right (by simp; omega)]
      congr 1
    rw [this, List.getElem?_drop]
    congr 1
    omega

theorem format_id_of_writeAt (cs : List Nat) (h : 22 ≤ cs.length) :
    format_id_of (writeAt cs 20 [1, 0]) = 1 := by
  unfold format_id_of readBytesAt
  rw [writeAt_decomp, List.append_assoc, List.drop_left' (length_take_20 cs h)]
  simp [int_from_bytes_le]

/- ------------------------------------------------------------------ -/
/- Branch-independent descriptions of `patch_wav_files`.              -/
/- ------------------------------------------------------------------ -/

theorem counted_eq_false_of_not_wav (f : WavFile) (h : isWav f = false) :
    counted f = false := by
  simp [counted, h]

theorem stepFile_of_not_wav (simulate : Bool) (f : WavFile)
    (h : isWav f = false) : stepFile simulate f = f := by
  simp [stepFile, counted_eq_false_of_not_wav f h]

theorem discovered_nil_no_counted (fs : FileSystem) (h : discovered fs = [])
    (f : WavFile) (hf : f ∈ fs.allFiles) : counted f = false := by
  have := (List.filter_eq_nil_iff).mp h f hf
  exact counted_eq_false_of_not_wav f (by simpa using this)

theorem patch_wav_files_success (fs : FileSystem) (simulate verbose : Bool) :
    (patch_wav_files fs simulate verbose).1.success = fs.rootExists := by
  cases h : fs.rootExists with
  | false => simp [patch_wav_files, h]
  | true =>
      simp [patch_wav_files, h]
      split <;> rfl

theorem patch_wav_files_ext (fs : FileSystem) (simulate verbose : Bool)
    (h : fs.rootExists = true) :
    (patch_wav_files fs simulate verbose).1.extensible_files =
      (fs.allFiles.filter counted).length := by
  rw [patch_wav_files]
  simp [h]
  split
  · rename_i hz
    have : fs.allFiles.filter counted = [] := by
      rw [List.filter_eq_nil_iff]
      intro f hf
      simp [discovered_nil_no_counted fs (by simpa using hz) f hf]
    simp [this]
  · simp [scan_files_state]

theorem patch_wav_files_patched (fs : FileSystem) (simulate verbose : Bool)
    (h : fs.rootExists = true) :
    (patch_wav_files fs simulate verbose).1.patched_files =
      (fs.allFiles.filter counted).map WavFile.path := by
  rw [patch_wav_files]
  simp [h]
  split
  · rename_i hz
    have : fs.allFiles.filter counted = [] := by
      rw [List.filter_eq_nil_iff]
      intro f hf
      simp [discovered_nil_no_counted fs (by simpa using hz) f hf]
    simp [this]
  · simp [scan_files_state]

theorem patch_wav_files_allFiles (fs : FileSystem) (simulate verbose : Bool)
    (h : fs.rootExists = true) :
    (patch_wav_files fs simulate verbose).2.1.allFiles =
      fs.allFiles.map (stepFile simulate) := by
  rw [patch_wav_files]
  simp [h]
  split
  · rename_i hz
    have hnil : discovered fs = [] := by simpa using hz
    have : fs.allFiles.map (stepFile simulate) = fs.allFiles.map id := by
      refine List.map_congr_left ?_
      intro f hf
      have hwav : ¬ (isWav f = true) := (List.filter_eq_nil_iff).mp hnil f hf
      exact stepFile_of_not_wav simulate f (by simpa using hwav)
    rw [this, List.map_id]
  · simp [scan_files_files]

theorem patch_wav_files_total (fs : FileSystem) (simulate verbose : Bool)
    (h : fs.rootExists = true) :
    (patch_wav_files fs simulate verbose).1.total_files =
      (discovered fs).length := by
  rw [patch_wav_files]
  simp [h]
  split
  · rename_i hz
    simp [hz]
  · rfl

theorem patch_wav_files_meta (fs : FileSystem) (simulate verbose : Bool) :
    (patch_wav_files fs simulate verbose).2.1.root = fs.root
    ∧ (patch_wav_files fs simulate verbose).2.1.rootExists = fs.rootExists
    ∧ (patch_wav_files fs simulate verbose).2.1.rootIsDir = fs.rootIsDir := by
  by_cases h : fs.rootExists = false
  · simp [patch_wav_files, h]
  · by_cases hz : discovered fs = []
    · simp [patch_wav_files, h, hz]
    · simp [patch_wav_files, h, hz]

/- ------------------------------------------------------------------ -/
/- Claim theorems.                                                    -/
/- ------------------------------------------------------------------ -/

/-- C4: in every returned scan result, `extensible_files` equals the length
of the matched-paths sequence `patched_files`, and `total_files` is greater
than or equal to `extensible_files`. -/
theorem counts_invariant (fs : FileSystem) (simulate verbose : Bool) :
    (patch_wav_files fs simulate verbose).1.extensible_files =
      (patch_wav_files fs simulate verbose).1.patched_files.length
    ∧ (patch_wav_files fs simulate verbose).1.extensible_files ≤
      (patch_wav_files fs simulate verbose).1.total_files := by
  cases h : fs.rootExists with
  | false => simp [patch_wav_files, h]
  | true =>
      rw [patch_wav_files_ext fs simulate verbose h,
        patch_wav_files_patched fs simulate verbose h,
        patch_wav_files_total fs simulate verbose h]
      refine ⟨by simp, ?_⟩
      rw [discovered, ← List.countP_eq_length_filter, ← List.countP_eq_length_filter]
      refine List.countP_mono_left ?_
      intro f _ hc
      simp [counted] at hc
      simp [hc.1]

/-- C9: the verbose flag does not interfere with the returned result nor
with the files: runs differing only in verbosity return the same result
dictionary and the same filesystem; verbosity affects only the log. -/
theorem verbose_noninterference (fs : FileSystem) (simulate v1 v2 : Bool) :
    (patch_wav_files fs simulate v1).1 = (patch_wav_files fs simulate v2).1
    ∧ (patch_wav_files fs simulate v1).2.1 = (patch_wav_files fs simulate v2).2.1 := by
  by_cases h : fs.rootExists = false
  · simp [patch_wav_files, h]
  · by_cases hz : discovered fs = []
    · simp [patch_wav_files, h, hz]
    · simp [patch_wav_files, h, hz, scan_files_state, scan_files_files]

/-- C6: a missing root directory yields a failed result with zero counts,
an empty matched-paths sequence, an error message naming the missing path,
no change to any file, and exit code 1 from the CLI. -/
theorem missing_root_behavior (fs : FileSystem) (simulate verbose patch quiet : Bool)
    (h : fs.rootExists = false) :
    (patch_wav_files fs simulate verbose).1 =
      { total_files := 0, extensible_files := 0, patched_files := [],
        success := false,
        error := some ("Directory does not exist: " ++ fs.root), message := none }
    ∧ (patch_wav_files fs simulate verbose).2.1 = fs
    ∧ CLI.main fs patch quiet = (1, fs) := by
  simp [patch_wav_files, CLI.main, h]

theorem missing_root_behavior_witness :
    (patch_wav_files ⟨"/no/such/dir", false, false, []⟩ true true).1 =
      { total_files := 0, extensible_files := 0, patched_files := [],
        success := false,
        error := some ("Directory does not exist: " ++ "/no/such/dir"),
        message := none }
    ∧ (patch_wav_files ⟨"/no/such/dir", false, false, []⟩ true true).2.1 =
      ⟨"/no/such/dir", false, false, []⟩
    ∧ CLI.main ⟨"/no/such/dir", false, false, []⟩ false false =
      (1, ⟨"/no/such/dir", false, false, []⟩) :=
  missing_root_behavior ⟨"/no/such/dir", false, false, []⟩ true true false false rfl

/-- C8: an existing directory containing zero files ending in `.wav` yields
success with all counts zero, an empty matched-paths sequence, the
informational message, no change to any file, and exit code 0 from the
CLI. -/
theorem no_wav_files_behavior (fs : FileSystem) (simulate verbose patch quiet : Bool)
    (hex : fs.rootExists = true) (hdir : fs.rootIsDir = true)
    (hz : discovered fs = []) :
    (patch_wav_files fs simulate verbose).1 =
      { total_files := 0, extensible_files := 0, patched_files := [],
        success := true, error := none,
        message := some "No WAV files found" }
    ∧ (patch_wav_files fs simulate verbose).2.1 = fs
    ∧ CLI.main fs patch quiet = (0, fs) := by
  simp [patch_wav_files, CLI.main, hex, hdir, hz]

theorem no_wav_files_behavior_witness :
    (patch_wav_files ⟨"/music", true, true, [⟨"/music/readme.txt", [1, 2], none, none⟩]⟩
        true true).1 =
      { total_files := 0, extensible_files := 0, patched_files := [],
        success := true, error := none,
        message := some "No WAV files found" }
    ∧ (patch_wav_files ⟨"/music", true, true, [⟨"/music/readme.txt", [1, 2], none, none⟩]⟩
        true true).2.1 =
      ⟨"/music", true, true, [⟨"/music/readme.txt", [1, 2], none, none⟩]⟩
    ∧ CLI.main ⟨"/music", true, true, [⟨"/music/readme.txt", [1, 2], none, none⟩]⟩
        false false =
      (0, ⟨"/music", true, true, [⟨"/music/readme.txt", [1, 2], none, none⟩]⟩) :=
  no_wav_files_behavior ⟨"/music", true, true, [⟨"/music/readme.txt", [1, 2], none, none⟩]⟩
    true true false false rfl rfl (by decide)

/-- C1: with an existing root, the matched-paths sequence is exactly the
paths of the discovered `.wav` files whose read succeeds and whose unsigned
little-endian 16-bit tag read at byte offset 20 equals 65534, in order, and
`extensible_files` is exactly their number: matching files and no others are
counted and recorded. -/
theorem scan_classification (fs : FileSystem) (simulate verbose : Bool)
    (h : fs.rootExists = true) :
    (patch_wav_files fs simulate verbose).1.patched_files =
      ((discovered fs).filter
        (fun f => f.openFail.isNone && (format_id_of f.content == 65534))).map
        WavFile.path
    ∧ (patch_wav_files fs simulate verbose).1.extensible_files =
      ((discovered fs).filter
        (fun f => f.openFail.isNone && (format_id_of f.content == 65534))).length := by
  have key : (discovered fs).filter
      (fun f => f.openFail.isNone && (format_id_of f.content == 65534)) =
      fs.allFiles.filter counted := by
    rw [discovered, List.filter_filter]
    refine List.filter_congr ?_
    intro f _
    simp [counted, matchedFile, Bool.and_comm]
  rw [patch_wav_files_patched fs simulate verbose h,
    patch_wav_files_ext fs simulate verbose h, key]
  exact ⟨rfl, rfl⟩

theorem scan_classification_witness :
    (patch_wav_files
        ⟨"/m", true, true,
          [⟨"/m/a.wav", List.replicate 20 0 ++ [254, 255], none, none⟩,
           ⟨"/m/b.wav", List.replicate 20 0 ++ [1, 0], none, none⟩]⟩
        true true).1.patched_files =
      ((discovered
        ⟨"/m", true, true,
          [⟨"/m/a.wav", List.replicate 20 0 ++ [254, 255], none, none⟩,
           ⟨"/m/b.wav", List.replicate 20 0 ++ [1, 0], none, none⟩]⟩).filter
        (fun f => f.openFail.isNone && (format_id_of f.content == 65534))).map
        WavFile.path
    ∧ (patch_wav_files
        ⟨"/m", true, true,
          [⟨"/m/a.wav", List.replicate 20 0 ++ [254, 255], none, none⟩,
           ⟨"/m/b.wav", List.replicate 20 0 ++ [1, 0], none, none⟩]⟩
        true true).1.extensible_files =
      ((discovered
        ⟨"/m", true, true,
          [⟨"/m/a.wav", List.replicate 20 0 ++ [254, 255], none, none⟩,
           ⟨"/m/b.wav", List.replicate 20 0 ++ [1, 0], none, none⟩]⟩).filter
        (fun f => f.openFail.isNone && (format_id_of f.content == 65534))).length :=
  scan_classification
    ⟨"/m", true, true,
      [⟨"/m/a.wav", List.replicate 20 0 ++ [254, 255], none, none⟩,
       ⟨"/m/b.wav", List.replicate 20 0 ++ [1, 0], none, none⟩]⟩
    true true rfl

/-- C5: for a file shorter than 22 bytes whose open and read do not raise,
the 2-byte read at offset 20 returns fewer than 2 bytes, the decoded tag is
never 65534, and the loop body completes without an exception leaving the
counters, the matched-paths sequence and the file bytes untouched. -/
theorem short_file_skipped (simulate verbose : Bool) (st : LoopState)
    (f : WavFile) (ho : f.openFail = none)
    (hb : bytesBounded f.content) (hlen : f.content.length < 22) :
    (readBytesAt f.content 20 2).length < 2
    ∧ format_id_of f.content ≠ 65534
    ∧ (process_one simulate verbose st f).1 = st
    ∧ (process_one simulate verbose st f).2.1 = f
    ∧ (process_one simulate verbose st f).2.2.2 = true := by
  have hfmt := format_id_of_short f.content hb hlen
  have hm : matchedFile f = false := by
    simp [matchedFile, hfmt]
  refine ⟨readBytesAt_short f.content hlen, hfmt, ?_, ?_, ?_⟩
  · rw [process_one_state]
    simp [hm]
  · rw [process_one_file]
    simp [hm]
  · simp [process_one, ho, hfmt]

theorem short_file_skipped_witness :
    (readBytesAt [82, 73, 70, 70] 20 2).length < 2
    ∧ format_id_of [82, 73, 70, 70] ≠ 65534
    ∧ (process_one true true ⟨0, []⟩ ⟨"/m/tiny.wav", [82, 73, 70, 70], none, none⟩).1 =
        ⟨0, []⟩
    ∧ (process_one true true ⟨0, []⟩ ⟨"/m/tiny.wav", [82, 73, 70, 70], none, none⟩).2.1 =
        ⟨"/m/tiny.wav", [82, 73, 70, 70], none, none⟩
    ∧ (process_one true true ⟨0, []⟩ ⟨"/m/tiny.wav", [82, 73, 70, 70], none, none⟩).2.2.2 =
        true :=
  short_file_skipped true true ⟨0, []⟩ ⟨"/m/tiny.wav", [82, 73, 70, 70], none, none⟩
    rfl (by unfold bytesBounded; decide) (by decide)

/-- C10: counting is not atomic with patching — a matched file is counted
and its path recorded before the write is attempted, so when the write
raises the result still counts and lists the file while its bytes stay
unchanged. -/
theorem counted_despite_write_error (root : String) (isDir : Bool)
    (f : WavFile) (verbose : Bool) (e : Failure)
    (hwav : isWav f = true) (ho : f.openFail = none)
    (hfmt : format_id_of f.content = 65534)
    (hw : f.writeFail = some e) :
    (patch_wav_files ⟨root, true, isDir, [f]⟩ false verbose).1.extensible_files = 1
    ∧ (patch_wav_files ⟨root, true, isDir, [f]⟩ false verbose).1.patched_files = [f.path]
    ∧ (patch_wav_files ⟨root, true, isDir, [f]⟩ false verbose).2.1.allFiles = [f] := by
  have hc : counted f = true := by
    simp [counted, matchedFile, hwav, ho, hfmt]
  refine ⟨?_, ?_, ?_⟩
  · rw [patch_wav_files_ext _ false verbose rfl]
    simp [hc]
  · rw [patch_wav_files_patched _ false verbose rfl]
    simp [hc]
  · rw [patch_wav_files_allFiles _ false verbose rfl]
    simp [stepFile, hc, hw]

theorem counted_despite_write_error_witness :
    (patch_wav_files
        ⟨"/m", true, true,
          [⟨"/m/x.wav", List.replicate 20 0 ++ [254, 255],
            none, some Failure.permission⟩]⟩
        false true).1.extensible_files = 1
    ∧ (patch_wav_files
        ⟨"/m", true, true,
          [⟨"/m/x.wav", List.replicate 20 0 ++ [254, 255],
            none, some Failure.permission⟩]⟩
        false true).1.patched_files = ["/m/x.wav"]
    ∧ (patch_wav_files
        ⟨"/m", true, true,
          [⟨"/m/x.wav", List.replicate 20 0 ++ [254, 255],
            none, some Failure.permission⟩]⟩
        false true).2.1.allFiles =
        [⟨"/m/x.wav", List.replicate 20 0 ++ [254, 255],
          none, some Failure.permission⟩] :=
  counted_despite_write_error "/m" true
    ⟨"/m/x.wav", List.replicate 20 0 ++ [254, 255], none, some Failure.permission⟩
    true Failure.permission (by decide) rfl (by decide) rfl

/-- C2: side-effect confinement — in simulate mode no byte of any file
changes; in patch mode, with writes that do not raise, exactly bytes 20–21
of each matched file are overwritten with the little-endian encoding of 1
(`01 00`), every other byte of every file is unchanged, non-matching files
are untouched, and every file keeps its length. -/
theorem side_effect_confinement (fs : FileSystem) (verbose : Bool)
    (h : fs.rootExists = true)
    (hb : ∀ f ∈ fs.allFiles, bytesBounded f.content)
    (hw : ∀ f ∈ fs.allFiles, f.writeFail = none) :
    (patch_wav_files fs true verbose).2.1.allFiles = fs.allFiles
    ∧ (patch_wav_files fs false verbose).2.1.allFiles.length = fs.allFiles.length
    ∧ ∀ (i : Nat) (f g : WavFile), fs.allFiles[i]? = some f →
        (patch_wav_files fs false verbose).2.1.allFiles[i]? = some g →
        (counted f = false → g = f)
        ∧ (counted f = true →
            g.path = f.path
            ∧ g.content.length = f.content.length
            ∧ g.content[20]? = some 1
            ∧ g.content[21]? = some 0
            ∧ ∀ j, j ≠ 20 → j ≠ 21 → g.content[j]? = f.content[j]?) := by
  refine ⟨?_, ?_, ?_⟩
  · rw [patch_wav_files_allFiles fs true verbose h]
    exact List.map_id'' (fun f => rfl) fs.allFiles
  · rw [patch_wav_files_allFiles fs false verbose h]
    simp
  · intro i f g hif hig
    rw [patch_wav_files_allFiles fs false verbose h, List.getElem?_map, hif] at hig
    simp at hig
    have hf : f ∈ fs.allFiles := by
      rcases List.getElem?_eq_some_iff.mp hif with ⟨hlt, hval⟩
      exact hval ▸ List.getElem_mem hlt
    have hwn : f.writeFail = none := hw f hf
    constructor
    · intro hc
      rw [← hig]
      simp [stepFile, hc]
    · intro hc
      have hfmt : format_id_of f.content = 65534 := by
        simp [counted, matchedFile] at hc
        exact hc.2.2
      have h22 := length_ge_of_format f.content (hb f hf) hfmt
      have hgdef : g = { f with content := writeAt f.content 20 [1, 0] } := by
        rw [← hig]
        simp [stepFile, hc, hwn]
      subst hgdef
      exact ⟨rfl, writeAt_length f.content h22, writeAt_getElem_20 f.content h22,
        writeAt_getElem_21 f.content h22,
        fun j h20 h21 => writeAt_getElem_other f.content h22 j h20 h21⟩

theorem side_effect_confinement_witness :
    (patch_wav_files
        ⟨"/m", true, true,
          [⟨"/m/a.wav", List.replicate 20 0 ++ [254, 255], none, none⟩,
           ⟨"/m/n.txt", [7], none, none⟩]⟩ true true).2.1.allFiles =
      [⟨"/m/a.wav", List.replicate 20 0 ++ [254, 255], none, none⟩,
       ⟨"/m/n.txt", [7], none, none⟩]
    ∧ (patch_wav_files
        ⟨"/m", true, true,
          [⟨"/m/a.wav", List.replicate 20 0 ++ [254, 255], none, none⟩,
           ⟨"/m/n.txt", [7], none, none⟩]⟩ false true).2.1.allFiles.length =
      ([⟨"/m/a.wav", List.replicate 20 0 ++ [254, 255], none, none⟩,
        ⟨"/m/n.txt", [7], none, none⟩] : List WavFile).length
    ∧ ∀ (i : Nat) (f g : WavFile),
        ([⟨"/m/a.wav", List.replicate 20 0 ++ [254, 255], none, none⟩,
          ⟨"/m/n.txt", [7], none, none⟩] : List WavFile)[i]? = some f →
        (patch_wav_files
          ⟨"/m", true, true,
            [⟨"/m/a.wav", List.replicate 20 0 ++ [254, 255], none, none⟩,
             ⟨"/m/n.txt", [7], none, none⟩]⟩ false true).2.1.allFiles[i]? = some g →
        (counted f = false → g = f)
        ∧ (counted f = true →
            g.path = f.path
            ∧ g.content.length = f.content.length
            ∧ g.content[20]? = some 1
            ∧ g.content[21]? = some 0
            ∧ ∀ j, j ≠ 20 → j ≠ 21 → g.content[j]? = f.content[j]?) :=
  side_effect_confinement
    ⟨"/m", true, true,
      [⟨"/m/a.wav", List.replicate 20 0 ++ [254, 255], none, none⟩,
       ⟨"/m/n.txt", [7], none, none⟩]⟩ true rfl
    (by unfold bytesBounded; decide) (by decide)

/-- C3: idempotence of patching — after a patch run (whose writes do not
raise) over an existing tree, a second run over the resulting tree finds
`extensible_files = 0` and records no path: every file patched in the first
run now carries tag 1 and no longer matches 65534. -/
theorem patch_idempotent (fs : FileSystem) (verbose simulate2 verbose2 : Bool)
    (h : fs.rootExists = true)
    (hb : ∀ f ∈ fs.allFiles, bytesBounded f.content)
    (hw : ∀ f ∈ fs.allFiles, f.writeFail = none) :
    (patch_wav_files (patch_wav_files fs false verbose).2.1
        simulate2 verbose2).1.extensible_files = 0
    ∧ (patch_wav_files (patch_wav_files fs false verbose).2.1
        simulate2 verbose2).1.patched_files = [] := by
  have hroot1 : (patch_wav_files fs false verbose).2.1.rootExists = true := by
    rw [(patch_wav_files_meta fs false verbose).2.1, h]
  have hnil : (patch_wav_files fs false verbose).2.1.allFiles.filter counted = [] := by
    rw [patch_wav_files_allFiles fs false verbose h, List.filter_eq_nil_iff]
    intro g hg
    rcases List.mem_map.mp hg with ⟨f, hf, hgf⟩
    subst hgf
    by_cases hc : counted f = true
    · have hwn : f.writeFail = none := hw f hf
      have hfmt : format_id_of f.content = 65534 := by
        simp [counted, matchedFile] at hc
        exact hc.2.2
      have h22 := length_ge_of_format f.content (hb f hf) hfmt
      have hstep : stepFile false f = { f with content := writeAt f.content 20 [1, 0] } := by
        simp [stepFile, hc, hwn]
      rw [hstep]
      simp [counted, matchedFile, format_id_of_writeAt f.content h22]
    · have hc' : counted f = false := by
        cases hcv : counted f
        · rfl
        · exact absurd hcv hc
      have hstep : stepFile false f = f := by
        simp [stepFile, hc']
      rw [hstep, hc']
      simp
  constructor
  · rw [patch_wav_files_ext _ simulate2 verbose2 hroot1, hnil]
    rfl
  · rw [patch_wav_files_patched _ simulate2 verbose2 hroot1, hnil]
    rfl

theorem patch_idempotent_witness :
    (patch_wav_files
        (patch_wav_files
          ⟨"/m", true, true,
            [⟨"/m/a.wav", List.replicate 20 0 ++ [254, 255], none, none⟩]⟩
          false true).2.1 false true).1.extensible_files = 0
    ∧ (patch_wav_files
        (patch_wav_files
          ⟨"/m", true, true,
            [⟨"/m/a.wav", List.replicate 20 0 ++ [254, 255], none, none⟩]⟩
          false true).2.1 false true).1.patched_files = [] :=
  patch_idempotent
    ⟨"/m", true, true,
      [⟨"/m/a.wav", List.replicate 20 0 ++ [254, 255], none, none⟩]⟩
    true false true rfl (by unfold bytesBounded; decide) (by decide)

/-- C7: a per-file I/O error (permission denial or any other exception) is
caught and processing continues: the failing file is skipped unchanged in
place, the counts and matched paths are exactly those of the same tree
without that file, and the overall success flag stays true — it is false
only when the pre-flight existence check fails. -/
theorem per_file_error_isolation (root : String) (isDir : Bool)
    (pre post : List WavFile) (bad : WavFile) (e : Failure)
    (simulate verbose : Bool) (hbad : bad.openFail = some e) :
    (patch_wav_files ⟨root, true, isDir, pre ++ bad :: post⟩ simulate verbose).1.success = true
    ∧ (patch_wav_files ⟨root, true, isDir, pre ++ bad :: post⟩ simulate verbose).1.extensible_files
        = (patch_wav_files ⟨root, true, isDir, pre ++ post⟩ simulate verbose).1.extensible_files
    ∧ (patch_wav_files ⟨root, true, isDir, pre ++ bad :: post⟩ simulate verbose).1.patched_files
        = (patch_wav_files ⟨root, true, isDir, pre ++ post⟩ simulate verbose).1.patched_files
    ∧ (patch_wav_files ⟨root, true, isDir, pre ++ bad :: post⟩ simulate verbose).2.1.allFiles
        = (patch_wav_files ⟨root, true, isDir, pre ++ post⟩
            simulate verbose).2.1.allFiles.take pre.length
          ++ bad :: (patch_wav_files ⟨root, true, isDir, pre ++ post⟩
            simulate verbose).2.1.allFiles.drop pre.length := by
  have hcb : counted bad = false := by
    simp [counted, matchedFile, hbad]
  have hsb : stepFile simulate bad = bad := by
    simp [stepFile, hcb]
  have hfilter : (pre ++ bad :: post).filter counted = (pre ++ post).filter counted := by
    simp [List.filter_append, List.filter_cons, hcb]
  refine ⟨patch_wav_files_success _ simulate verbose, ?_, ?_, ?_⟩
  · rw [patch_wav_files_ext _ simulate verbose rfl,
      patch_wav_files_ext _ simulate verbose rfl]
    simp [hfilter]
  · rw [patch_wav_files_patched _ simulate verbose rfl,
      patch_wav_files_patched _ simulate verbose rfl]
    simp [hfilter]
  · rw [patch_wav_files_allFiles _ simulate verbose rfl,
      patch_wav_files_allFiles _ simulate verbose rfl]
    simp only [List.map_append, List.map_cons, hsb]
    rw [List.take_left' (by simp), List.drop_left' (by simp)]

theorem per_file_error_isolation_witness :
    (patch_wav_files
        ⟨"/m", true, true,
          [⟨"/m/a.wav", List.replicate 20 0 ++ [254, 255], none, none⟩]
          ++ ⟨"/m/locked.wav", List.replicate 20 0 ++ [254, 255],
              some Failure.permission, none⟩
          :: [⟨"/m/c.wav", List.replicate 20 0 ++ [254, 255], none, none⟩]⟩
        true true).1.success = true
    ∧ (patch_wav_files
        ⟨"/m", true, true,
          [⟨"/m/a.wav", List.replicate 20 0 ++ [254, 255], none, none⟩]
          ++ ⟨"/m/locked.wav", List.replicate 20 0 ++ [254, 255],
              some Failure.permission, none⟩
          :: [⟨"/m/c.wav", List.replicate 20 0 ++ [254, 255], none, none⟩]⟩
        true true).1.extensible_files
      = (patch_wav_files
          ⟨"/m", true, true,
            [⟨"/m/a.wav", List.replicate 20 0 ++ [254, 255], none, none⟩]
            ++ [⟨"/m/c.wav", List.replicate 20 0 ++ [254, 255], none, none⟩]⟩
          true true).1.extensible_files
    ∧ (patch_wav_files
        ⟨"/m", true, true,
          [⟨"/m/a.wav", List.replicate 20 0 ++ [254, 255], none, none⟩]
          ++ ⟨"/m/locked.wav", List.replicate 20 0 ++ [254, 255],
              some Failure.permission, none⟩
          :: [⟨"/m/c.wav", List.replicate 20 0 ++ [254, 255], none, none⟩]⟩
        true true).1.patched_files
      = (patch_wav_files
          ⟨"/m", true, true,
            [⟨"/m/a.wav", List.replicate 20 0 ++ [254, 255], none, none⟩]
            ++ [⟨"/m/c.wav", List.replicate 20 0 ++ [254, 255], none, none⟩]⟩
          true true).1.patched_files
    ∧ (patch_wav_files
        ⟨"/m", true, true,
          [⟨"/m/a.wav", List.replicate 20 0 ++ [254, 255], none, none⟩]
          ++ ⟨"/m/locked.wav", List.replicate 20 0 ++ [254, 255],
              some Failure.permission, none⟩
          :: [⟨"/m/c.wav", List.replicate 20 0 ++ [254, 255], none, none⟩]⟩
        true true).2.1.allFiles
      = (patch_wav_files
          ⟨"/m", true, true,
            [⟨"/m/a.wav", List.replicate 20 0 ++ [254, 255], none, none⟩]
            ++ [⟨"/m/c.wav", List.replicate 20 0 ++ [254, 255], none, none⟩]⟩
          true true).2.1.allFiles.take
            ([⟨"/m/a.wav", List.replicate 20 0 ++ [254, 255], none, none⟩] : List WavFile).length
        ++ ⟨"/m/locked.wav", List.replicate 20 0 ++ [254, 255],
            some Failure.permission, none⟩
        :: (patch_wav_files
            ⟨"/m", true, true,
              [⟨"/m/a.wav", List.replicate 20 0 ++ [254, 255], none, none⟩]
              ++ [⟨"/m/c.wav", List.replicate 20 0 ++ [254, 255], none, none⟩]⟩
            true true).2.1.allFiles.drop
              ([⟨"/m/a.wav", List.replicate 20 0 ++ [254, 255], none, none⟩] : List WavFile).length :=
  per_file_error_isolation "/m" true
    [⟨"/m/a.wav", List.replicate 20 0 ++ [254, 255], none, none⟩]
    [⟨"/m/c.wav", List.replicate 20 0 ++ [254, 255], none, none⟩]
    ⟨"/m/locked.wav", List.replicate 20 0 ++ [254, 255], some Failure.permission, none⟩
    Failure.permission true true rfl
